import Mathlib

/-!
Verification development for the serialDevice repository (src/serialdevice.py,
src/multimeter.py): a shallow embedding of the serial line-transport core and
the multimeter facade, followed by theorems settling the frozen claims.

Modelling conventions:
  - Bytes are `Nat` (values 0..255 in practice); a byte stream delivered by the
    physical medium is a `List Nat`.  `port.read(1)` pops the next byte of the
    stream; an exhausted stream models the no-more-data / timeout condition
    (pySerial returns an empty bytes object then).
  - Python exceptions are the inductive `PyErr`; fallible operations return
    `Except`.  Where a raising operation has already mutated the object, the
    error carries the mutated state.
  - Delays and timeouts are stored configuration only (no claim computes with
    them); they are modelled as rationals.
-/

/-- Python exception kinds that can arise at the call sites modelled here.
The subclass relation (see `ancestors`) is modelled from the spec boundary:
pySerial documents SerialTimeoutException and PortNotOpenError as subclasses
of SerialException, which itself is a subclass of IOError (OSError), and
Python defines UnicodeDecodeError as a subclass of ValueError. -/
inductive PyErr where
  | SerialException
  | SerialTimeoutException
  | PortNotOpenError
  | IOError
  | AttributeError
  | ValueError
  | TypeError
  | IndexError
  | UnicodeDecodeError
  | RuntimeError
deriving DecidableEq, Repr

/-- The chain of classes an exception instance belongs to, itself included. -/
def PyErr.ancestors : PyErr → List PyErr
  | .SerialException => [.SerialException, .IOError]
  | .SerialTimeoutException => [.SerialTimeoutException, .SerialException, .IOError]
  | .PortNotOpenError => [.PortNotOpenError, .SerialException, .IOError]
  | .UnicodeDecodeError => [.UnicodeDecodeError, .ValueError]
  | e => [e]

/-- Python isinstance check used by `except` clauses: an `except C` clause
catches exception `e` exactly when `isInstance e C`. -/
def isInstance (e c : PyErr) : Bool :=
  c ∈ e.ancestors

/-- Python negative-index slice `line[-n:]`, as used in the terminator checks
`line[-length_of_termination:] == terminator`.  For `n ≥ 1` this is the last
`min n (length line)` elements; for `n = 0` Python yields the whole list
(`line[-0:]` is `line[0:]`). -/
def lastSlice (l : List Nat) (n : Nat) : List Nat :=
  if n = 0 then l else l.drop (l.length - n)

/-- Loop body of `SerialDevice._read_until` (src/serialdevice.py lines
219-231): read one byte at a time, break when the tail of the accumulated
buffer equals the terminator, when `count >= max_size` (if a max size is
given), or when the stream is exhausted (the read timeout path, where
`port.read(1)` returns an empty bytes object). -/
def read_until_loop (term : List Nat) (max_size : Option Nat) :
    List Nat → List Nat → Nat → List Nat
  | [], line, _ => line
  | c :: rest, line, count =>
    if lastSlice (line ++ [c]) term.length = term then line ++ [c]
    else
      match max_size with
      | some m =>
        if m ≤ count + 1 then line ++ [c]
        else read_until_loop term max_size rest (line ++ [c]) (count + 1)
      | none => read_until_loop term max_size rest (line ++ [c]) (count + 1)

/-- Loop body of `SerialDevice._readline` (src/serialdevice.py lines 242-255):
identical to `read_until_loop` except that the size cutoff is the strict
comparison `count > max_size`, and the loop also ends as soon as
`port.inWaiting()` reports no buffered byte, which on a fixed available
stream is again exhaustion of the stream. -/
def readline_loop (term : List Nat) (max_size : Nat) :
    List Nat → List Nat → Nat → List Nat
  | [], line, _ => line
  | c :: rest, line, count =>
    if lastSlice (line ++ [c]) term.length = term then line ++ [c]
    else if max_size < count + 1 then line ++ [c]
    else readline_loop term max_size rest (line ++ [c]) (count + 1)

namespace SerialDevice

/-- `SerialDevice._read_until(terminator, max_size)` run against the byte
stream `stream` available from the port. -/
def _read_until (stream term : List Nat) (max_size : Option Nat) : List Nat :=
  read_until_loop term max_size stream [] 0

/-- `SerialDevice._readline(terminator, max_size)` run against the byte
stream `stream` available from the port. -/
def _readline (stream term : List Nat) (max_size : Nat) : List Nat :=
  readline_loop term max_size stream [] 0

end SerialDevice

/-- Modelled from the spec: pySerial's built-in `read_until(terminator, size)`
(the mode-2 strategy), which is not part of this repository.  The repository
states that `_read_until` "is copied from serialutil.py, part of pySerial",
and the spec boundary lists `read-until(terminator, max-size)` with the same
stop conditions, so it is modelled by the same loop. -/
def pyserial_read_until (stream term : List Nat) (max_size : Option Nat) : List Nat :=
  read_until_loop term max_size stream [] 0

/-- Modelled from the spec: pySerial's built-in `readline(size)` (the mode-1
strategy), the single-line read bounded by max size at the spec boundary:
reading until the line-feed terminator `[10]` or the size bound. -/
def pyserial_readline (stream : List Nat) (max_size : Nat) : List Nat :=
  pyserial_read_until stream [10] (some max_size)

-- Sanity checks of the loops on concrete streams (terminator kept in frame,
-- `>=` versus `>` cutoff).
example : SerialDevice._read_until [72, 73, 10, 74] [10] (some 1000) = [72, 73, 10] := by decide
example : SerialDevice._read_until [65, 66, 67] [10] (some 2) = [65, 66] := by decide
example : SerialDevice._readline [65, 66, 67] [10] 2 = [65, 66, 67] := by decide
example : pyserial_readline [72, 10, 74] 1000 = [72, 10] := by decide

/-- UTF-8 encoding of one character, as performed by `str.encode("UTF-8")`. -/
def utf8EncodeChar (c : Char) : List Nat :=
  let n := c.toNat
  if n < 0x80 then [n]
  else if n < 0x800 then [0xC0 + n / 0x40, 0x80 + n % 0x40]
  else if n < 0x10000 then
    [0xE0 + n / 0x1000, 0x80 + (n / 0x40) % 0x40, 0x80 + n % 0x40]
  else
    [0xF0 + n / 0x40000, 0x80 + (n / 0x1000) % 0x40, 0x80 + (n / 0x40) % 0x40, 0x80 + n % 0x40]

/-- UTF-8 encoding of a string: `msg.encode(encoding="UTF-8")`. -/
def utf8Encode (s : String) : List Nat :=
  s.data.flatMap utf8EncodeChar

/-- Strict UTF-8 decoding of a byte list: `r_bytes.decode(encoding="UTF-8")`.
`none` models a raised UnicodeDecodeError (truncated, overlong, surrogate or
out-of-range sequences rejected, as Python's strict default does). -/
def utf8Decode : List Nat → Option (List Char)
  | [] => some []
  | b :: rest =>
    if b < 0x80 then
      match utf8Decode rest with
      | some cs => some (Char.ofNat b :: cs)
      | none => none
    else if 0xC2 ≤ b ∧ b ≤ 0xDF then
      match rest with
      | b2 :: rest2 =>
        if 0x80 ≤ b2 ∧ b2 ≤ 0xBF then
          match utf8Decode rest2 with
          | some cs => some (Char.ofNat ((b - 0xC0) * 0x40 + (b2 - 0x80)) :: cs)
          | none => none
        else none
      | [] => none
    else if 0xE0 ≤ b ∧ b ≤ 0xEF then
      match rest with
      | b2 :: b3 :: rest3 =>
        if (0x80 ≤ b2 ∧ b2 ≤ 0xBF) ∧ (0x80 ≤ b3 ∧ b3 ≤ 0xBF)
            ∧ (b = 0xE0 → 0xA0 ≤ b2) ∧ (b = 0xED → b2 ≤ 0x9F) then
          match utf8Decode rest3 with
          | some cs =>
            some (Char.ofNat ((b - 0xE0) * 0x1000 + (b2 - 0x80) * 0x40 + (b3 - 0x80)) :: cs)
          | none => none
        else none
      | _ => none
    else if 0xF0 ≤ b ∧ b ≤ 0xF4 then
      match rest with
      | b2 :: b3 :: b4 :: rest4 =>
        if (0x80 ≤ b2 ∧ b2 ≤ 0xBF) ∧ (0x80 ≤ b3 ∧ b3 ≤ 0xBF) ∧ (0x80 ≤ b4 ∧ b4 ≤ 0xBF)
            ∧ (b = 0xF0 → 0x90 ≤ b2) ∧ (b = 0xF4 → b2 ≤ 0x8F) then
          match utf8Decode rest4 with
          | some cs =>
            some (Char.ofNat
              ((b - 0xF0) * 0x40000 + (b2 - 0x80) * 0x1000 + (b3 - 0x80) * 0x40 + (b4 - 0x80)) :: cs)
          | none => none
        else none
      | _ => none
    else none

/-- Python `s.strip(chars)`: remove, from both the leading and the trailing
end of `s`, every character that occurs in `chars`. -/
def pyStrip (s : String) (chars : List Char) : String :=
  ⟨((s.data.dropWhile (fun c => chars.contains c)).reverse.dropWhile
      (fun c => chars.contains c)).reverse⟩

/-- Removal of trailing carriage-return and line-feed characters only: the
reading of the claim that `read()` strips the trailing terminator (the code
actually strips both ends, see `pyStrip`). -/
def stripTrailingCRLF (s : String) : String :=
  ⟨(s.data.reverse.dropWhile (fun c => c == '\r' || c == '\n')).reverse⟩

example : utf8Encode "H\r\n" = [72, 13, 10] := by decide
example : utf8Decode [72, 13, 10] = some ['H', '\r', '\n'] := by decide
example : pyStrip "\rA\n" ['\r', '\n'] = "A" := by decide
example : stripTrailingCRLF "\rA\n" = "\rA" := by decide

/-- Decidable equality on `Except`, used to evaluate the modelled operations
on concrete inputs. -/
instance {ε α : Type} [DecidableEq ε] [DecidableEq α] : DecidableEq (Except ε α) := fun a b =>
  match a, b with
  | .ok x, .ok y => decidable_of_iff (x = y) (by simp)
  | .error x, .error y => decidable_of_iff (x = y) (by simp)
  | .ok _, .error _ => isFalse (by simp)
  | .error _, .ok _ => isFalse (by simp)

/-- One underlying pySerial port object, at the spec boundary: its reported
open state, fault injection for the next write and the next read call (a
`some e` models the physical medium raising `e` during that call, e.g. a USB
cable disconnected mid-transfer), the bytes available to be read, and the
bytes written so far. -/
structure Port where
  is_open : Bool
  writeFault : Option PyErr
  readFault : Option PyErr
  inBuffer : List Nat
  written : List Nat
deriving DecidableEq, Repr

/-- `port.close()`: the underlying transport marks itself closed. -/
def Port.close (p : Port) : Port :=
  { p with is_open := false }

namespace SerialDevice

/-- State of one `SerialDevice` object: the optional underlying port object
(`None` until a successful `open_port`) and the configuration attributes set
by the constructor. -/
structure State where
  port : Option Port
  port_num : Option Int
  baud_rate : Nat
  read_delay : ℚ
  timeout : ℚ
  write_timeout : ℚ
  read_mode : Nat
deriving DecidableEq, Repr

/-- `SerialDevice.__init__`: creates the object without a serial port. -/
def init : State :=
  { port := none
    port_num := none
    baud_rate := 19200
    read_delay := 0.2
    timeout := 2
    write_timeout := 2
    read_mode := 1 }

/-- `SerialDevice.is_open()`: the `port` attribute always exists after
`__init__`, so the checks are: `port is None`, then `port.isOpen()`. -/
def is_open (d : State) : Bool :=
  match d.port with
  | none => false
  | some p => p.is_open

/-- `SerialDevice.close_port()`: `None` has no `close` attribute, so a
never-assigned port is a no-op; otherwise close the underlying port. -/
def close_port (d : State) : State :=
  match d.port with
  | none => d
  | some p => { d with port := some (Port.close p) }

/-- `SerialDevice.open_port(connection_info)` (src/serialdevice.py lines
66-101).  `serialResult` is the outcome of the external
`serial.Serial(...)` constructor call: `.ok p` a freshly opened port,
`.error e` the constructor raising `e` (ValueError for a setting out of
range, SerialException when the medium cannot be acquired, ...); every
`except` branch logs and re-raises.  The error carries the object state at
the moment of the raise: the previous port has already been closed and
`port_num` already reassigned. -/
def open_port (d : State) (connection_info : List Int)
    (serialResult : Except PyErr Port) : Except (PyErr × State) State :=
  let d1 := close_port d
  match connection_info with
  | [] => .error (.IndexError, d1)
  | n :: _ =>
    let d2 := { d1 with port_num := some n }
    match serialResult with
    | .error e => .error (e, d2)
    | .ok p => .ok { d2 with port := some p }

/-- The object state after a successful `self.port.write(msg.encode("UTF-8"))`:
the encoded bytes appended to the medium. -/
def afterWrite (d : State) (msg : String) : State :=
  match d.port with
  | none => d
  | some p => { d with port := some { p with written := p.written ++ utf8Encode msg } }

/-- `SerialDevice.write(msg)` (src/serialdevice.py lines 126-154): a closed
or absent handle logs and returns (no exception); otherwise the encoded
bytes are written, and every `except` branch (`PortNotOpenError`,
`SerialException`, generic `Exception`) logs and RE-RAISES the exception,
carried here together with the (unchanged) object state. -/
def write (d : State) (msg : String) : Except (PyErr × State) State :=
  if is_open d = false then .ok d
  else
    match d.port with
    | none => .ok d
    | some p =>
      match p.writeFault with
      | some e => .error (e, d)
      | none => .ok (afterWrite d msg)

/-- Strategy dispatch of `SerialDevice.read` (src/serialdevice.py lines
172-179): mode 1 is pySerial `readline`, mode 2 pySerial `read_until`,
mode 3 the local `_read_until`, anything else the local `_readline`. -/
def readFrame (buf term : List Nat) (max_size : Nat) (m : Nat) : List Nat :=
  if m = 1 then pyserial_readline buf max_size
  else if m = 2 then pyserial_read_until buf term (some max_size)
  else if m = 3 then _read_until buf term (some max_size)
  else _readline buf term max_size

/-- `SerialDevice.read(terminator, max_size, mode)` (src/serialdevice.py
lines 156-206): resolve the mode default, return `None` when not open;
a fault raised by the port during the strategy is caught and yields `None`
when it is a `PortNotOpenError`, a `SerialException`, an `IOError` or an
`AttributeError` (the three `except` clauses), and propagates otherwise;
on success the frame is decoded as UTF-8 (a decode failure raised in the
`else:` block is NOT caught here) and stripped of leading and trailing
carriage returns and line feeds by `r_str.strip("\r\n")`. -/
def read (d : State) (term : List Nat) (max_size : Nat) (mode : Option Nat) :
    Except PyErr (Option String) :=
  let m := mode.getD d.read_mode
  if is_open d = false then .ok none
  else
    match d.port with
    | none => .ok none
    | some p =>
      match p.readFault with
      | some e =>
        if isInstance e .PortNotOpenError then .ok none
        else if isInstance e .SerialException then .ok none
        else if isInstance e .IOError || isInstance e .AttributeError then .ok none
        else .error e
      | none =>
        match utf8Decode (readFrame p.inBuffer term max_size m) with
        | none => .error .UnicodeDecodeError
        | some cs => .ok (some (pyStrip ⟨cs⟩ ['\r', '\n']))

end SerialDevice

/-- A device state whose port is open with the given available bytes and the
given injected faults, all configuration as set by the constructor. -/
def openDevWith (buf : List Nat) (wf rf : Option PyErr) : SerialDevice.State :=
  { SerialDevice.init with
    port := some { is_open := true, writeFault := wf, readFault := rf,
                   inBuffer := buf, written := [] } }

/-- A fault-free open device with the given available bytes. -/
def openDev (buf : List Nat) : SerialDevice.State :=
  openDevWith buf none none

example : SerialDevice.is_open SerialDevice.init = false := by decide
example : SerialDevice.read (openDev [72, 13, 10]) [10] 1000 none = .ok (some "H") := by decide
example : SerialDevice.read SerialDevice.init [10] 1000 none = .ok none := by decide

/-- Observable actions performed by `Multimeter.query` on one call: sending a
command over the port, the fixed settle delay, and one read attempt. -/
inductive Event where
  | writeEv (cmd : String)
  | sleepEv (t : ℚ)
  | readEv
deriving DecidableEq, Repr

namespace Multimeter

/-- `Multimeter.query(cmd)` (src/multimeter.py lines 54-81).  The
`while not finished` loop runs its body exactly once: every path of the body
either sets `finished = True`, returns, or re-raises, so the code is the
straight line write, `time.sleep(self.read_delay)`, read.  A
`SerialException` or `SerialTimeoutException` raised during a phase is
caught and yields the empty string; every other exception is re-raised by
the generic `except Exception` clause.  The second component is the trace
of actions performed. -/
def query (d : SerialDevice.State) (cmd : String) :
    Except PyErr (Option String) × List Event :=
  match SerialDevice.write d cmd with
  | .error (e, _) =>
    if isInstance e .SerialException || isInstance e .SerialTimeoutException then
      (.ok (some ""), [.writeEv cmd])
    else
      (.error e, [.writeEv cmd])
  | .ok d1 =>
    match SerialDevice.read d1 [10] 1000 none with
    | .error e =>
      if isInstance e .SerialException || isInstance e .SerialTimeoutException then
        (.ok (some ""), [.writeEv cmd, .sleepEv d.read_delay, .readEv])
      else
        (.error e, [.writeEv cmd, .sleepEv d.read_delay, .readEv])
    | .ok r => (.ok r, [.writeEv cmd, .sleepEv d.read_delay, .readEv])

end Multimeter

/-- Numeric value of a digit string. -/
def digitsVal (l : List Char) : Nat :=
  l.foldl (fun a c => a * 10 + (c.toNat - 48)) 0

/-- Split at the first exponent marker `e` or `E`. -/
def splitExp : List Char → List Char × Option (List Char)
  | [] => ([], none)
  | c :: r =>
    if c = 'e' ∨ c = 'E' then ([], some r)
    else
      let p := splitExp r
      (c :: p.1, p.2)

/-- Unsigned decimal numeral with optional fractional part: digits, a dot
with digits on at least one side, or both. -/
def parseUnsignedDec (l : List Char) : Option ℚ :=
  let intPart := l.takeWhile Char.isDigit
  let rest := l.dropWhile Char.isDigit
  match rest with
  | [] => if intPart = [] then none else some (digitsVal intPart)
  | '.' :: frac =>
    if frac.all Char.isDigit ∧ (intPart ≠ [] ∨ frac ≠ []) then
      some ((digitsVal intPart : ℚ) + (digitsVal frac : ℚ) / 10 ^ frac.length)
    else none
  | _ => none

/-- Optionally signed decimal numeral with optional fractional part. -/
def parseSignedDec (l : List Char) : Option ℚ :=
  match l with
  | '+' :: r => parseUnsignedDec r
  | '-' :: r => (parseUnsignedDec r).map Neg.neg
  | _ => parseUnsignedDec l

/-- Optionally signed integer numeral (the exponent of a float literal). -/
def parseSignedInt (l : List Char) : Option Int :=
  match l with
  | '+' :: r => if r ≠ [] ∧ r.all Char.isDigit then some (digitsVal r) else none
  | '-' :: r => if r ≠ [] ∧ r.all Char.isDigit then some (-(digitsVal r : Int)) else none
  | _ => if l ≠ [] ∧ l.all Char.isDigit then some (digitsVal l) else none

/-- Modelled from the spec: the external Python built-in `float(s)` used by
`get_DCVolts` to parse the voltage string as an IEEE double.  The numeral
grammar (optional sign, digits with optional fraction, optional signed
exponent) is parsed to its exact numeric value as a rational; IEEE rounding,
inf/nan words, surrounding whitespace and digit-group underscores are not
modelled. `none` models a raised ValueError. -/
def pyFloat (s : String) : Option ℚ :=
  let p := splitExp s.data
  match parseSignedDec p.1, p.2 with
  | some q, none => some q
  | some q, some ex => (parseSignedInt ex).map (fun n => q * 10 ^ n)
  | none, _ => none

example : pyFloat "9.9E37" = some (99 * 10 ^ 36 : ℚ) := by with_unfolding_all rfl
example : pyFloat "-1.5e-2" = some (-(3 / 200) : ℚ) := by with_unfolding_all rfl
example : pyFloat "FLUKE" = none := by decide
example : pyFloat "" = none := by decide

namespace Multimeter

/-- The command string `"MEAS:VOLT:DC? " (+ str(scale)) + "\n"` built by
`get_DCVolts`; `scale` is the textual form of the optional argument. -/
def dcVoltsCmd (scale : Option String) : String :=
  "MEAS:VOLT:DC? " ++ (match scale with | some t => t | none => "") ++ "\n"

/-- `Multimeter.get_DCVolts(scale)` (src/multimeter.py lines 102-132): query
the meter; a `SerialException`/`SerialTimeoutException` from the query gives
`None`, any other exception re-raises.  The subsequent
`logger.info("response is " + s)` raises a TypeError when the query returned
`None`.  Then `float(s)`: a ValueError gives `None`, otherwise the parsed
number is returned verbatim (the overload sentinel 9.9E37 is not special). -/
def get_DCVolts (d : SerialDevice.State) (scale : Option String) :
    Except PyErr (Option ℚ) :=
  match (query d (dcVoltsCmd scale)).1 with
  | .error e =>
    if isInstance e .SerialException || isInstance e .SerialTimeoutException then .ok none
    else .error e
  | .ok none => .error .TypeError
  | .ok (some s) =>
    match pyFloat s with
    | none => .ok none
    | some f => .ok (some f)

end Multimeter

example :
    Multimeter.get_DCVolts (openDev (utf8Encode "9.9E37\r\n")) none
      = .ok (some (99 * 10 ^ 36 : ℚ)) := by with_unfolding_all rfl
example :
    (Multimeter.query SerialDevice.init "X\n").2
      = [Event.writeEv "X\n", Event.sleepEv 0.2, Event.readEv] := by with_unfolding_all rfl

/-! Loop lemmas for the byte-reading strategies. -/

/-- If fewer than the size bound bytes remain unread and no tail of a prefix
matches the terminator, `read_until_loop` returns once the count reaches the
bound, having consumed exactly `m - count` further bytes. -/
theorem read_until_loop_maxed (term : List Nat) (m : Nat) :
    ∀ (rest line : List Nat) (count : Nat),
      count < m → m - count ≤ rest.length →
      (∀ k < m - count, lastSlice (line ++ rest.take (k + 1)) term.length ≠ term) →
      read_until_loop term (some m) rest line count = line ++ rest.take (m - count)
  | [], line, count, hc, hlen, _ => by
    simp only [List.length_nil] at hlen
    omega
  | c :: rest, line, count, hc, hlen, hno => by
    have h1 : lastSlice (line ++ [c]) term.length ≠ term := by
      have h := hno 0 (by omega)
      simpa using h
    rw [read_until_loop]
    rw [if_neg h1]
    by_cases h2 : m ≤ count + 1
    · have hm : m - count = 1 := by omega
      rw [if_pos h2, hm]
      simp
    · rw [if_neg h2]
      have hlen2 : m - (count + 1) ≤ rest.length := by
        simp only [List.length_cons] at hlen
        omega
      have hno2 : ∀ k < m - (count + 1),
          lastSlice ((line ++ [c]) ++ rest.take (k + 1)) term.length ≠ term := by
        intro k hk
        have h := hno (k + 1) (by omega)
        simpa [List.take_succ_cons, List.append_assoc] using h
      have ih := read_until_loop_maxed term m rest (line ++ [c]) (count + 1)
        (by omega) hlen2 hno2
      rw [ih]
      have hmc : m - count = (m - (count + 1)) + 1 := by omega
      rw [hmc, List.take_succ_cons]
      simp

/-- The custom `_readline` loop is the `_read_until` loop with the size
bound shifted by one: `count > max_size` versus `count >= max_size`. -/
theorem readline_loop_eq (term : List Nat) (m : Nat) :
    ∀ (rest line : List Nat) (count : Nat),
      readline_loop term m rest line count = read_until_loop term (some (m + 1)) rest line count
  | [], _, _ => by
    rw [readline_loop, read_until_loop]
  | c :: rest, line, count => by
    rw [readline_loop, read_until_loop]
    by_cases h1 : lastSlice (line ++ [c]) term.length = term
    · rw [if_pos h1, if_pos h1]
    · rw [if_neg h1, if_neg h1]
      by_cases h2 : m < count + 1
      · rw [if_pos h2, if_pos (show m + 1 ≤ count + 1 by omega)]
      · rw [if_neg h2, if_neg (show ¬ m + 1 ≤ count + 1 by omega)]
        exact readline_loop_eq term m rest (line ++ [c]) (count + 1)

/-- If the remaining bytes fit in the size bound, no tail of a proper prefix
matches the terminator, and the full remainder ends in the terminator, the
loop consumes everything and returns it, terminator included. -/
theorem read_until_loop_terminated (term : List Nat) (m : Nat) :
    ∀ (rest line : List Nat) (count : Nat),
      rest ≠ [] →
      count + rest.length ≤ m →
      (∀ k < rest.length - 1, lastSlice (line ++ rest.take (k + 1)) term.length ≠ term) →
      lastSlice (line ++ rest) term.length = term →
      read_until_loop term (some m) rest line count = line ++ rest
  | [], _, _, hne, _, _, _ => absurd rfl hne
  | [c], line, count, _, _, _, hterm => by
    rw [read_until_loop]
    rw [if_pos hterm]
  | c :: c2 :: rest, line, count, _, hlen, hno, hterm => by
    have h1 : lastSlice (line ++ [c]) term.length ≠ term := by
      have h := hno 0 (by simp)
      simpa using h
    rw [read_until_loop]
    rw [if_neg h1]
    have h2 : ¬ m ≤ count + 1 := by
      simp only [List.length_cons] at hlen
      omega
    rw [if_neg h2]
    have hno2 : ∀ k < (c2 :: rest).length - 1,
        lastSlice ((line ++ [c]) ++ (c2 :: rest).take (k + 1)) term.length ≠ term := by
      intro k hk
      have h := hno (k + 1) (by simp only [List.length_cons] at hk ⊢; omega)
      simpa [List.take_succ_cons, List.append_assoc] using h
    have hterm2 : lastSlice ((line ++ [c]) ++ (c2 :: rest)) term.length = term := by
      simpa [List.append_assoc] using hterm
    have ih := read_until_loop_terminated term m (c2 :: rest) (line ++ [c]) (count + 1)
      (by simp) (by simp only [List.length_cons] at hlen ⊢; omega) hno2 hterm2
    rw [ih]
    simp

/-! Claim theorems. -/

/-- C1, counterexample: on the stream 65 66 67 with terminator 10 (which
never occurs) and max size 2, the custom `_readline` strategy returns a
Frame of three bytes, not exactly max-size bytes. -/
theorem readline_overrun_cex :
    SerialDevice._readline [65, 66, 67] [10] 2 = [65, 66, 67] ∧
    (SerialDevice._readline [65, 66, 67] [10] 2).length ≠ 2 := by decide

/-- C1 (amended): if no terminator occurs before max-size bytes are
consumed, the strategies `_read_until`, pySerial `read_until` (mode 2) and
pySerial `readline` (mode 1, terminator 10) return a Frame of exactly
max-size bytes, but the custom `_readline` strategy, whose cutoff is
`count > max_size` instead of `count >= max_size`, returns max-size + 1
bytes when that many are available. -/
theorem frame_truncation_length (stream term : List Nat) (m : Nat)
    (h1 : 1 ≤ m) (h2 : m + 1 ≤ stream.length)
    (h3 : ∀ k < m + 1, lastSlice (stream.take (k + 1)) term.length ≠ term)
    (h4 : ∀ k < m, lastSlice (stream.take (k + 1)) 1 ≠ [10]) :
    (SerialDevice._read_until stream term (some m)).length = m ∧
    (pyserial_read_until stream term (some m)).length = m ∧
    (pyserial_readline stream m).length = m ∧
    (SerialDevice._readline stream term m).length = m + 1 := by
  have hmain := read_until_loop_maxed term m stream [] 0 (by omega)
    (by omega) (by intro k hk; simpa using h3 k (by omega))
  have hmode1 := read_until_loop_maxed [10] m stream [] 0 (by omega)
    (by omega) (by intro k hk; simpa using h4 k (by omega))
  have hline := read_until_loop_maxed term (m + 1) stream [] 0 (by omega)
    (by omega) (by intro k hk; simpa using h3 k (by omega))
  refine ⟨?_, ?_, ?_, ?_⟩
  · rw [SerialDevice._read_until, hmain]
    simp
    omega
  · rw [pyserial_read_until, hmain]
    simp
    omega
  · rw [pyserial_readline, pyserial_read_until, hmode1]
    simp
    omega
  · rw [SerialDevice._readline, readline_loop_eq, hline]
    simp
    omega

/-- C1, witness for the amended theorem at the stream 65 66 67, terminator
10, max size 2. -/
theorem frame_truncation_length_witness :
    (SerialDevice._read_until [65, 66, 67] [10] (some 2)).length = 2 ∧
    (pyserial_read_until [65, 66, 67] [10] (some 2)).length = 2 ∧
    (pyserial_readline [65, 66, 67] 2).length = 2 ∧
    (SerialDevice._readline [65, 66, 67] [10] 2).length = 2 + 1 :=
  frame_truncation_length [65, 66, 67] [10] 2 (by decide) (by decide)
    (by decide) (by decide)

/-- C2, counterexample: on the stream 72 73 10 ending in the terminator 10,
`_read_until` returns the whole stream, terminator included, not the stream
with the terminator removed. -/
theorem frame_keeps_terminator_cex :
    SerialDevice._read_until [72, 73, 10] [10] (some 1000) = [72, 73, 10] ∧
    SerialDevice._read_until [72, 73, 10] [10] (some 1000) ≠ [72, 73] := by decide

/-- C2 (amended): for every strategy, given a byte stream that ends in the
configured terminator, contains no earlier terminator occurrence, and has
length at most max size, the returned Frame equals the ENTIRE stream,
terminator included (the terminator is stripped later by `read`, from the
decoded string, not by the byte reader).  The mode-1 strategy is the mode-2
strategy at terminator 10, an instance of the second conjunct. -/
theorem frame_terminator_whole_stream (data term : List Nat) (m : Nat)
    (hterm : term ≠ [])
    (hlen : (data ++ term).length ≤ m)
    (hno : ∀ k < (data ++ term).length - 1,
      lastSlice ((data ++ term).take (k + 1)) term.length ≠ term) :
    SerialDevice._read_until (data ++ term) term (some m) = data ++ term ∧
    pyserial_read_until (data ++ term) term (some m) = data ++ term ∧
    SerialDevice._readline (data ++ term) term m = data ++ term := by
  have hne : data ++ term ≠ [] := by
    intro h
    rcases List.append_eq_nil.mp h with ⟨-, h2⟩
    exact hterm h2
  have hslice : lastSlice ([] ++ (data ++ term)) term.length = term := by
    have hlen0 : term.length ≠ 0 := by simpa using hterm
    have harith : (data ++ term).length - term.length = data.length := by
      simp [List.length_append]
    rw [List.nil_append, lastSlice, if_neg hlen0, harith, List.drop_left]
  have hno2 : ∀ k < (data ++ term).length - 1,
      lastSlice ([] ++ (data ++ term).take (k + 1)) term.length ≠ term := by
    intro k hk
    simpa using hno k hk
  have hmain := read_until_loop_terminated term m (data ++ term) [] 0 hne
    (by omega) hno2 hslice
  have hline := read_until_loop_terminated term (m + 1) (data ++ term) [] 0 hne
    (by omega) hno2 hslice
  refine ⟨?_, ?_, ?_⟩
  · rw [SerialDevice._read_until, hmain, List.nil_append]
  · rw [pyserial_read_until, hmain, List.nil_append]
  · rw [SerialDevice._readline, readline_loop_eq, hline, List.nil_append]

/-- C2, witness for the amended theorem at the stream 72 73 13 10 with
terminator 13 10 and max size 1000. -/
theorem frame_terminator_whole_stream_witness :
    SerialDevice._read_until ([72, 73] ++ [13, 10]) [13, 10] (some 1000) = [72, 73] ++ [13, 10] ∧
    pyserial_read_until ([72, 73] ++ [13, 10]) [13, 10] (some 1000) = [72, 73] ++ [13, 10] ∧
    SerialDevice._readline ([72, 73] ++ [13, 10]) [13, 10] 1000 = [72, 73] ++ [13, 10] :=
  frame_terminator_whole_stream [72, 73] [13, 10] 1000 (by decide) (by decide) (by decide)

/-- C3: every call of `query` performs at most the action sequence one
write, one settle delay of the configured `read_delay`, one read, in that
order (and never a second attempt); whenever the write phase succeeds, the
full sequence is performed exactly once and the result of `read` is
returned untouched. -/
theorem query_single_attempt :
    (∀ (d : SerialDevice.State) (cmd : String),
      (Multimeter.query d cmd).2 = [Event.writeEv cmd] ∨
      (Multimeter.query d cmd).2
        = [Event.writeEv cmd, Event.sleepEv d.read_delay, Event.readEv]) ∧
    (∀ (d d1 : SerialDevice.State) (cmd : String),
      SerialDevice.write d cmd = .ok d1 →
      (Multimeter.query d cmd).2
        = [Event.writeEv cmd, Event.sleepEv d.read_delay, Event.readEv] ∧
      ∀ r, SerialDevice.read d1 [10] 1000 none = .ok r →
        (Multimeter.query d cmd).1 = .ok r) := by
  constructor
  · intro d cmd
    cases hw : SerialDevice.write d cmd with
    | error pe =>
      left
      obtain ⟨e, st⟩ := pe
      simp only [Multimeter.query, hw]
      split <;> rfl
    | ok d1 =>
      right
      simp only [Multimeter.query, hw]
      cases hr : SerialDevice.read d1 [10] 1000 none with
      | error e =>
        simp only [hr]
        split <;> rfl
      | ok r => simp [hr]
  · intro d d1 cmd hw
    constructor
    · simp only [Multimeter.query, hw]
      cases hr : SerialDevice.read d1 [10] 1000 none with
      | error e =>
        simp only [hr]
        split <;> rfl
      | ok r => simp [hr]
    · intro r hr
      simp [Multimeter.query, hw, hr]

/-- C3, witness: on the never-opened device, one call of `query` performs
write, delay, read, and returns the read result (absent). -/
theorem query_single_attempt_witness :
    (Multimeter.query SerialDevice.init "CMD\n").2
      = [Event.writeEv "CMD\n", Event.sleepEv SerialDevice.init.read_delay, Event.readEv] ∧
    (Multimeter.query SerialDevice.init "CMD\n").1 = .ok none :=
  ⟨(query_single_attempt.2 SerialDevice.init SerialDevice.init "CMD\n" rfl).1,
   (query_single_attempt.2 SerialDevice.init SerialDevice.init "CMD\n" rfl).2 none rfl⟩

/-- The pySerial exception family is contained in the IOError family, so a
fault the `read` method lets through is never one that the `query`
coordinator would catch. -/
theorem isInstance_serial_io (e : PyErr) :
    (isInstance e .SerialException || isInstance e .SerialTimeoutException) = true →
      (isInstance e .PortNotOpenError || isInstance e .SerialException
        || isInstance e .IOError || isInstance e .AttributeError) = true := by
  cases e <;> decide

/-- C4: a write-phase fault of the recognized pySerial taxonomy makes
`query` return the empty string; a read-phase fault of the taxonomy that
`read` swallows makes `query` return the absent result; each is an
empty/absent result, not a distinguished sentinel.  Any fault outside the
recognized taxonomy propagates to the caller from either phase. -/
theorem query_transport_faults (buf : List Nat) (e : PyErr) (cmd : String) :
    ((isInstance e .SerialException || isInstance e .SerialTimeoutException) = true →
      (Multimeter.query (openDevWith buf (some e) none) cmd).1 = .ok (some "")) ∧
    ((isInstance e .SerialException || isInstance e .SerialTimeoutException) = false →
      (Multimeter.query (openDevWith buf (some e) none) cmd).1 = .error e) ∧
    ((isInstance e .PortNotOpenError || isInstance e .SerialException
        || isInstance e .IOError || isInstance e .AttributeError) = true →
      (Multimeter.query (openDevWith buf none (some e)) cmd).1 = .ok none) ∧
    ((isInstance e .PortNotOpenError || isInstance e .SerialException
        || isInstance e .IOError || isInstance e .AttributeError) = false →
      (Multimeter.query (openDevWith buf none (some e)) cmd).1 = .error e) := by
  refine ⟨?_, ?_, ?_, ?_⟩ <;> intro h <;> cases e <;>
    simp_all [Multimeter.query, SerialDevice.write, SerialDevice.read,
      SerialDevice.afterWrite, openDevWith, SerialDevice.init, SerialDevice.is_open,
      isInstance, PyErr.ancestors]

/-- C4, witness: a SerialException injected in the write phase yields the
empty string; injected in the read phase it yields the absent result. -/
theorem query_transport_faults_witness :
    (Multimeter.query (openDevWith [] (some PyErr.SerialException) none) "X\n").1
      = .ok (some "") ∧
    (Multimeter.query (openDevWith [] none (some PyErr.SerialException)) "X\n").1
      = .ok none :=
  ⟨(query_transport_faults [] PyErr.SerialException "X\n").1 (by decide),
   (query_transport_faults [] PyErr.SerialException "X\n").2.2.1 (by decide)⟩

/-- An open device whose next port write raises a SerialException (the USB
cable disconnected mid-transfer). -/
def faultyDev : SerialDevice.State := openDevWith [] (some PyErr.SerialException) none

/-- C5, counterexample: a transport fault during `write` on an open handle
is re-raised to the caller (the result is the propagated exception, not a
normal return), contradicting logged-and-swallowed. -/
theorem write_fault_swallow_cex :
    SerialDevice.write faultyDev "QQQ\n" = .error (PyErr.SerialException, faultyDev) := rfl

/-- C5 (amended): when an underlying transport fault occurs during `write`
on an open handle, `write` logs the fault and RE-RAISES it: the exception
propagates to the caller, with the handle state unchanged (not corrupted,
not closed). -/
theorem write_fault_propagates (d : SerialDevice.State) (p : Port) (e : PyErr) (msg : String)
    (hp : d.port = some p) (ho : p.is_open = true) (hf : p.writeFault = some e) :
    SerialDevice.write d msg = .error (e, d) := by
  simp [SerialDevice.write, SerialDevice.is_open, hp, ho, hf]

/-- C5, witness for the amended theorem on a concrete faulty open device. -/
theorem write_fault_propagates_witness :
    SerialDevice.write faultyDev "W\n" = .error (PyErr.SerialException, faultyDev) :=
  write_fault_propagates faultyDev _ PyErr.SerialException "W\n" rfl rfl rfl

/-- C6: on a handle that is closed or was never opened, `write` returns
without effect and without raising, `read` returns the absent result
without raising, and `is_open` returns false. -/
theorem closed_handle_noop (d : SerialDevice.State) (msg : String) (term : List Nat)
    (max_size : Nat) (mode : Option Nat)
    (h : d.port = none ∨ ∃ p, d.port = some p ∧ p.is_open = false) :
    SerialDevice.is_open d = false ∧
    SerialDevice.write d msg = .ok d ∧
    SerialDevice.read d term max_size mode = .ok none := by
  have hopen : SerialDevice.is_open d = false := by
    rcases h with h | ⟨p, hp, hpo⟩
    · simp [SerialDevice.is_open, h]
    · simp [SerialDevice.is_open, hp, hpo]
  refine ⟨hopen, ?_, ?_⟩
  · simp [SerialDevice.write, hopen]
  · simp [SerialDevice.read, hopen]

/-- C6, witness: the freshly constructed, never-opened device. -/
theorem closed_handle_noop_witness :
    SerialDevice.is_open SerialDevice.init = false ∧
    SerialDevice.write SerialDevice.init "W\n" = .ok SerialDevice.init ∧
    SerialDevice.read SerialDevice.init [10] 1000 none = .ok none :=
  closed_handle_noop SerialDevice.init "W\n" [10] 1000 none (Or.inl rfl)

/-- The byte frame `FLUKE,8845A,9344019,09/29/06-16:59\r\n` echoed by the
instrument after the identification query. -/
def flukeBytes : List Nat := utf8Encode "FLUKE,8845A,9344019,09/29/06-16:59\r\n"

/-- On a fault-free open device, `read` returns the decoded frame stripped
of leading and trailing carriage returns and line feeds by
`r_str.strip("\r\n")`. -/
theorem read_open_decode (buf term : List Nat) (max_size : Nat) (mode : Option Nat)
    (cs : List Char)
    (h : utf8Decode (SerialDevice.readFrame buf term max_size (mode.getD 1)) = some cs) :
    SerialDevice.read (openDev buf) term max_size mode
      = .ok (some (pyStrip ⟨cs⟩ ['\r', '\n'])) := by
  simp [SerialDevice.read, openDev, openDevWith, SerialDevice.init,
    SerialDevice.is_open, h]

/-- C7, counterexample: reading the frame 13 65 10 (decoded text CR A LF)
returns the one-character string A, not the trailing-only-stripped text
CR A, because `strip` removes the leading carriage return as well. -/
theorem read_trailing_strip_cex :
    SerialDevice.read (openDev [13, 65, 10]) [10] 1000 none = .ok (some "A") ∧
    stripTrailingCRLF "\rA\n" = "\rA" ∧
    ("A" : String) ≠ "\rA" := ⟨rfl, rfl, by decide⟩

/-- C7 (amended): for every Frame successfully decoded by a read on an open
handle, the returned ResponseString is the decoded text with carriage
returns and line feeds stripped from BOTH the leading and the trailing end;
in particular the frame `FLUKE,8845A,9344019,09/29/06-16:59\r\n` yields the
string `FLUKE,8845A,9344019,09/29/06-16:59`. -/
theorem read_strips_both_ends (buf term : List Nat) (max_size : Nat) (mode : Option Nat)
    (cs : List Char)
    (h : utf8Decode (SerialDevice.readFrame buf term max_size (mode.getD 1)) = some cs) :
    SerialDevice.read (openDev buf) term max_size mode
      = .ok (some (pyStrip ⟨cs⟩ ['\r', '\n'])) ∧
    SerialDevice.read (openDev flukeBytes) [10] 1000 none
      = .ok (some "FLUKE,8845A,9344019,09/29/06-16:59") :=
  ⟨read_open_decode buf term max_size mode cs h, rfl⟩

/-- C7, witness at the FLUKE identification frame. -/
theorem read_strips_both_ends_witness :
    SerialDevice.read (openDev flukeBytes) [10] 1000 none
      = .ok (some (pyStrip ⟨"FLUKE,8845A,9344019,09/29/06-16:59\r\n".data⟩ ['\r', '\n'])) ∧
    SerialDevice.read (openDev flukeBytes) [10] 1000 none
      = .ok (some "FLUKE,8845A,9344019,09/29/06-16:59") :=
  read_strips_both_ends flukeBytes [10] 1000 none
    "FLUKE,8845A,9344019,09/29/06-16:59\r\n".data rfl

/-- C9: when the decoded text of a successfully read Frame begins with a
carriage return or a line feed, `read` drops that leading character too:
its result is the same as for the decoded tail. -/
theorem read_strips_leading_crlf (buf term : List Nat) (max_size : Nat) (mode : Option Nat)
    (c : Char) (cs : List Char)
    (h : utf8Decode (SerialDevice.readFrame buf term max_size (mode.getD 1)) = some (c :: cs))
    (hc : c = '\r' ∨ c = '\n') :
    SerialDevice.read (openDev buf) term max_size mode
      = .ok (some (pyStrip ⟨cs⟩ ['\r', '\n'])) := by
  rw [read_open_decode buf term max_size mode (c :: cs) h]
  have hstrip : pyStrip ⟨c :: cs⟩ ['\r', '\n'] = pyStrip ⟨cs⟩ ['\r', '\n'] := by
    rcases hc with rfl | rfl <;> simp [pyStrip, List.dropWhile]
  rw [hstrip]

/-- C9, witness: the frame 13 13 72 10 decodes to CR CR H LF and reads as
the read of the tail CR H LF (both give the string H). -/
theorem read_strips_leading_crlf_witness :
    SerialDevice.read (openDev [13, 13, 72, 10]) [10] 1000 none
      = .ok (some (pyStrip ⟨['\r', 'H', '\n']⟩ ['\r', '\n'])) :=
  read_strips_leading_crlf [13, 13, 72, 10] [10] 1000 none '\r' ['\r', 'H', '\n']
    rfl (Or.inl rfl)

/-- C8: whenever `query` hands `get_DCVolts` a response string, a response
that parses as a number is returned verbatim — in particular the overload
sentinel response `9.9E37` yields the value 9.9e37, not an error — and a
response that does not parse yields the absent result instead of an
exception. -/
theorem get_DCVolts_parse (d : SerialDevice.State) (scale : Option String) (s : String)
    (h : (Multimeter.query d (Multimeter.dcVoltsCmd scale)).1 = .ok (some s)) :
    (∀ f, pyFloat s = some f → Multimeter.get_DCVolts d scale = .ok (some f)) ∧
    (pyFloat s = none → Multimeter.get_DCVolts d scale = .ok none) ∧
    Multimeter.get_DCVolts (openDev (utf8Encode "9.9E37\r\n")) none
      = .ok (some (99 * 10 ^ 36 : ℚ)) := by
  refine ⟨?_, ?_, by with_unfolding_all rfl⟩
  · intro f hf
    simp [Multimeter.get_DCVolts, h, hf]
  · intro hf
    simp [Multimeter.get_DCVolts, h, hf]

/-- C8, witness: the meter answering `9.9E37\r\n` makes `get_DCVolts`
return the overload sentinel value. -/
theorem get_DCVolts_parse_witness :
    Multimeter.get_DCVolts (openDev (utf8Encode "9.9E37\r\n")) none
      = .ok (some ((99 * 10 ^ 36 : ℚ))) :=
  (get_DCVolts_parse (openDev (utf8Encode "9.9E37\r\n")) none "9.9E37"
    (by with_unfolding_all rfl)).1 (99 * 10 ^ 36) (by with_unfolding_all rfl)

/-- C10: when `open_port` raises (here: the external `serial.Serial`
constructor fails with any exception), the object state carried at the
raise has already changed: `port_num` equals the requested identifier from
`connection_info[0]`, and the previously held port has been closed (so
`is_open` is false); a failed open is not atomic. -/
theorem open_port_not_atomic (d : SerialDevice.State) (n : Int) (rest : List Int) (e : PyErr) :
    SerialDevice.open_port d (n :: rest) (.error e)
      = .error (e, { SerialDevice.close_port d with port_num := some n }) ∧
    ({ SerialDevice.close_port d with port_num := some n }).port_num = some n ∧
    SerialDevice.is_open { SerialDevice.close_port d with port_num := some n } = false ∧
    (∀ p, d.port = some p →
      ({ SerialDevice.close_port d with port_num := some n }).port = some (Port.close p)) := by
  refine ⟨rfl, rfl, ?_, ?_⟩
  · cases hp : d.port with
    | none => simp [SerialDevice.is_open, SerialDevice.close_port, hp]
    | some p => simp [SerialDevice.is_open, SerialDevice.close_port, hp, Port.close]
  · intro p hp
    simp [SerialDevice.close_port, hp]

/-- C10, witness: a failed open on a previously open device, requesting
port 5. -/
theorem open_port_not_atomic_witness :
    SerialDevice.open_port (openDev []) [5] (.error PyErr.ValueError)
      = .error (PyErr.ValueError,
          { SerialDevice.close_port (openDev []) with port_num := some 5 }) ∧
    ({ SerialDevice.close_port (openDev []) with port_num := some 5 }).port_num = some 5 ∧
    SerialDevice.is_open
      { SerialDevice.close_port (openDev []) with port_num := some 5 } = false ∧
    ({ SerialDevice.close_port (openDev []) with port_num := some 5 }).port
      = some (Port.close { is_open := true, writeFault := none, readFault := none,
                           inBuffer := [], written := [] }) :=
  ⟨(open_port_not_atomic (openDev []) 5 [] PyErr.ValueError).1,
   (open_port_not_atomic (openDev []) 5 [] PyErr.ValueError).2.1,
   (open_port_not_atomic (openDev []) 5 [] PyErr.ValueError).2.2.1,
   (open_port_not_atomic (openDev []) 5 [] PyErr.ValueError).2.2.2 _ rfl⟩
